import Mathlib

/-!
Verification of the ochothon orchestration core against its specification.

The model shallowly embeds the two per-template Automation workflows of the
toolset (`toolset/commands/deploy.py` and `toolset/commands/update.py`).
Each Automation's `run` method is embedded as a pure function of an
environment record that supplies the outside world's answers (parsed YAML,
registry snapshots, HTTP status codes, sibling-command results), and returns
the accumulated outcome dictionary, the error caught at the `run` boundary
(if any), and a trace of the externally visible actions.

External collaborators that are not part of this repository's sources
(`ochopod.core.utils.merge`, `ochopod.core.utils.retry`) are modelled from
the specification, as noted on their definitions.
-/

/-! ## JSON/YAML document model

Parsed YAML templates, override blocks and Marathon submission documents are
all Python dict/list/scalar trees; `JVal` models them.  Mappings are ordered
association lists, mirroring Python's insertion-ordered dicts. -/

inductive JVal where
  | null
  | bool (b : Bool)
  | num (n : Int)
  | str (s : String)
  | arr (xs : List JVal)
  | obj (fs : List (String × JVal))

/-- First value bound to key `k` in an object's field list (Python `d[k]`). -/
def jget : List (String × JVal) → String → Option JVal
  | [], _ => none
  | (k0, v) :: rest, k => if k0 == k then some v else jget rest k

/-- Lookup on a `JVal` that is expected to be a mapping; `none` otherwise. -/
def jget0 (v : JVal) (k : String) : Option JVal :=
  match v with
  | .obj fs => jget fs k
  | _ => none

/-- Lookup along a path of keys through nested mappings
(Python `d[k1][k2]...[kn]`, `none` when any step is missing or the value
reached is not a mapping). -/
def jgetPath : JVal → List String → Option JVal
  | v, [] => some v
  | v, k :: ks =>
      match jget0 v k with
      | some w => jgetPath w ks
      | none => none

/-- Modelled from the spec: `ochopod.core.utils.merge` is not under `src/`;
§4.1 pins its direction ("merges template over a default document",
"override wins on leaf conflict" for `merge(settings, blk)`), i.e.
`merge(a, b)` is a recursive deep merge in which `b` wins on conflicting
leaves, subtrees that are mappings on both sides are merged recursively, and
keys of `a` missing from `b` are kept.  The result keeps `a`'s key order
followed by `b`'s extra keys, as Python's in-place dict update does.  The
fuel argument models Python's finite recursion limit; it is never exhausted
on the inputs considered here. -/
def jmergeF : Nat → JVal → JVal → JVal
  | 0, _, b => b
  | f + 1, .obj af, .obj bf =>
      .obj ((af.map (fun p => (p.1, match jget bf p.1 with
              | some bv => jmergeF f p.2 bv
              | none => p.2)))
            ++ bf.filter (fun q => (jget af q.1).isNone))
  | _ + 1, _, b => b

/-- `merge(a, b)` at Python's default recursion budget. -/
def jmerge (a b : JVal) : JVal := jmergeF 1000 a b

/-- Python truthiness of a parsed YAML value (`assert raw`, `if cfg['debug']`). -/
def jTruthy : JVal → Bool
  | .null => false
  | .bool b => b
  | .num n => n != 0
  | .str s => !s.isEmpty
  | .arr xs => !xs.isEmpty
  | .obj fs => !fs.isEmpty

/-- Whether a value is a mapping. -/
def isObjJ : JVal → Bool
  | .obj _ => true
  | _ => false

/-- `json.dumps`, fuelled like `jmergeF`. -/
def jdumpF : Nat → JVal → String
  | 0, _ => ""
  | _ + 1, .null => "null"
  | _ + 1, .bool true => "true"
  | _ + 1, .bool false => "false"
  | _ + 1, .num n => toString n
  | _ + 1, .str s => "\"" ++ s ++ "\""
  | f + 1, .arr xs => "[" ++ String.intercalate (", ") (xs.map (jdumpF f)) ++ "]"
  | f + 1, .obj fs =>
      "\x7b" ++ String.intercalate (", ")
        (fs.map (fun p => "\"" ++ p.1 ++ "\": " ++ jdumpF f p.2)) ++ "\x7d"

def jdump (v : JVal) : String := jdumpF 1000 v

/-- `_nullcheck` of deploy.py: walk a settings mapping and collect the dotted
path of every `null` leaf, recursing into sub-mappings, in insertion order. -/
def nullcheckF : Nat → List String → JVal → List String
  | 0, _, _ => []
  | f + 1, path, .obj fs =>
      fs.foldr (fun p acc =>
        (match p.2 with
         | .null => [String.intercalate (".") path ++ "." ++ p.1]
         | .obj _ => nullcheckF f (path ++ [p.1]) p.2
         | _ => []) ++ acc) []
  | _ + 1, _, _ => []

def nullcheck (path : List String) (v : JVal) : List String := nullcheckF 1000 path v

/-! ## CPython string identity

Line 226 of deploy.py compares a pod's process hint against the literal
`'dead'` with `is not`, which compares object identity, not value.  `PyStr`
models a CPython string object: its value together with an object identity.
The literal `'dead'` occurring in the source is one fixed (interned) object;
strings deserialized from registry replies are freshly allocated objects and
are therefore never identical to it, whatever their value. -/

structure PyStr where
  val : String
  objId : Nat
deriving DecidableEq

/-- The interned literal `'dead'` of deploy.py line 226. -/
def deadLit : PyStr := ⟨"dead", 0⟩

/-- Python `a is not b`: the two references denote distinct objects. -/
def pyIsNot (a b : PyStr) : Bool := a.objId != b.objId

/-! ## Deploy Automation (deploy.py `_Automation.run`) -/

/-- One port descriptor after `_parse_port`: a container port, optionally
also bound on the host. -/
structure PortSpec where
  container : Int
  host : Option Int
deriving DecidableEq

/-- `_parse_port`: a bare integer is container-only; a string ending in
`" *"` binds the port on the host as well; anything else is invalid. -/
def parsePort (t : JVal) : Option PortSpec :=
  match t with
  | .num n => some ⟨n, none⟩
  | .str s =>
      if s.endsWith (" *") then
        match (s.dropRight 2).toInt? with
        | some p => some ⟨p, some p⟩
        | none => none
      else none
  | _ => none

def parsePorts : JVal → Option (List PortSpec)
  | .arr ts => ts.mapM parsePort
  | _ => none

/-- Marathon `portMappings` entry for one parsed port. -/
def portJ (p : PortSpec) : JVal :=
  match p.host with
  | some h => .obj [("containerPort", .num p.container), ("hostPort", .num h)]
  | none => .obj [("containerPort", .num p.container)]

/-- Python truthiness of the optional `-p` argument: both "not given"
(`None`) and an explicit `0` are falsy. -/
def pyFalsyOpt : Option Int → Bool
  | none => true
  | some n => n == 0

/-- Lines 140-143 of deploy.py: the target pod count is the current pod
count when cycling and `-p` is falsy, `1` when `-p` is falsy without
cycling, and the `-p` value otherwise. -/
def resolvePods (pods : Option Int) (cycle : Bool) (prevLen : Nat) : Int :=
  if cycle ∧ pyFalsyOpt pods then (prevLen : Int)
  else if pyFalsyOpt pods then 1
  else match pods with
       | some n => n
       | none => 1

/-- One entry of a registry reply as seen by deploy.py's `_spin` query:
the pod's `process` hint (a deserialized string object), its sequence
number, and its `application` hint. -/
structure PollEntry where
  state : PyStr
  seq : Int
  app : String
deriving DecidableEq

/-- Modelled from the spec: Bounded Retry (§4.2) around `_spin`
(`@retry(timeout=60, pause=1, default={})`); `ochopod.core.utils.retry` is
not under `src/`.  Each list element is the registry view of one poll
attempt within the time budget; an attempt succeeds when, filtered to the
new application id, it has exactly the target size (`_spin`'s assert); on
exhaustion the default empty mapping is returned. -/
def deploySpin (views : List (List PollEntry)) (app : String) (pods : Int) :
    List PollEntry :=
  match views with
  | [] => []
  | v :: rest =>
      let filtered := v.filter (fun en => en.app == app)
      if (filtered.length : Int) == pods then filtered else deploySpin rest app pods

/-- The field list of the generated Marathon submission document
(deploy.py lines 160-190). -/
def buildSubmissionFields (application : String) (pods : Int) (cluster : String)
    (debug : Bool) (nspace : String) (qualified : String) (settings : JVal)
    (image : String) (ports : List PortSpec) : List (String × JVal) :=
  [("id", .str application),
   ("instances", .num pods),
   ("env", .obj
      [("ochopod_cluster", .str cluster),
       ("ochopod_debug", .str (if debug then "true" else "false")),
       ("ochopod_namespace", .str nspace),
       ("ochopod_application", .str qualified),
       ("pod", .str (jdump settings))]),
   ("container", .obj
      [("type", .str "DOCKER"),
       ("docker", .obj
          [("image", .str image),
           ("network", .str "BRIDGE"),
           ("portMappings", .arr (ports.map portJ))]),
       ("volumes", .arr
          [.obj [("containerPath", .str "/etc/mesos"),
                 ("hostPath", .str "/etc/mesos"),
                 ("mode", .str "RO")]])])]

def buildSubmission (application : String) (pods : Int) (cluster : String)
    (debug : Bool) (nspace : String) (qualified : String) (settings : JVal)
    (image : String) (ports : List PortSpec) : JVal :=
  .obj (buildSubmissionFields application pods cluster debug nspace qualified
          settings image ports)

/-- The errors deploy.py's `run` can raise; all are caught at the `run`
boundary (lines 256-268). -/
inductive DeployErr where
  | noMaster
  | yamlError
  | noCluster
  | noImage
  | badSettings
  | missingSettings
  | badPort
  | submitFailed
  | deleteFailed
  | killFailed
deriving DecidableEq

/-- The per-template outcome dictionary `self.out` of deploy.py. -/
structure DOutcome where
  ok : Bool
  up : List Int
  down : List Int
deriving DecidableEq

/-- Externally visible actions of one deploy run: the submitted document
(`POST /v2/apps`), the deleted application id (`DELETE /v2/apps/<id>`),
and the sequence numbers passed to the shelled-out kill. -/
structure DTrace where
  posted : Option JVal
  deleted : Option String
  killed : Option (List Int)

/-- Environment of one deploy Automation: its inputs and the answers of its
external collaborators. -/
structure DeployEnv where
  masterSet : Bool
  yamlResult : Except Unit JVal
  overrides : List (String × JVal)
  nspace : String
  pods : Option Int
  cycle : Bool
  suffix : Option String
  stamp : String
  preReplies : List (Int × Nat)
  postCode : Nat
  pollViews : List (List PollEntry)
  deleteCode : Nat
  killExit : Int

structure DeployRes where
  err : Option DeployErr
  out : DOutcome
  trace : DTrace

/-- Data carried out of the validation/spec-building phase of deploy.py's
`run` (everything up to and including line 196). -/
structure DeployPrep where
  qualified : String
  application : String
  prev : List Int
  pods : Int
  spec : JVal

def deployDefaults : JVal :=
  .obj [("debug", .bool false), ("settings", .obj []),
        ("ports", .arr [.num 8080]), ("verbatim", .obj [])]

/-- Deploy.py lines 64-196: template parse and merge with defaults,
cluster/image validation, suffix, application id, override merge, null
check, pre-deploy registry snapshot, target pod count, port parsing, and
submission document construction with the `verbatim` block merged via
`merge(cfg['verbatim'], spec)`. -/
def deployPrep (e : DeployEnv) : Except DeployErr DeployPrep :=
  if ¬ e.masterSet then .error .noMaster else
  match e.yamlResult with
  | .error _ => .error .yamlError
  | .ok raw =>
    let cfg := jmerge deployDefaults raw
    match jget0 cfg ("cluster") with
    | none => .error .noCluster
    | some clusterV =>
      match jget0 cfg ("image") with
      | none => .error .noImage
      | some imageV =>
        let cluster0 := match clusterV with | .str s => s | _ => jdump clusterV
        let cluster := match e.suffix with
                       | some s => cluster0 ++ "-" ++ s
                       | none => cluster0
        let qualified := e.nspace ++ "." ++ cluster
        let application := "ochopod." ++ qualified ++ "-" ++ e.stamp
        let settings0 := (jget0 cfg ("settings")).getD (.obj [])
        let settings := match jget e.overrides qualified with
                        | some blk => jmerge settings0 blk
                        | none => settings0
        if ¬ (isObjJ settings) then .error .badSettings else
        if ¬ (nullcheck ["pod"] settings).isEmpty then .error .missingSettings else
        let prev := (e.preReplies.filter (fun r => r.2 == 200)).map (fun r => r.1)
        let pods := resolvePods e.pods e.cycle prev.length
        match parsePorts ((jget0 cfg ("ports")).getD (.arr [])) with
        | none => .error .badPort
        | some ports =>
          let image := match imageV with | .str s => s | _ => jdump imageV
          let debug := jTruthy ((jget0 cfg ("debug")).getD .null)
          let gen := buildSubmission application pods cluster debug e.nspace
                       qualified settings image ports
          let spec := jmerge ((jget0 cfg ("verbatim")).getD (.obj [])) gen
          .ok ⟨qualified, application, prev, pods, spec⟩

/-- Deploy.py `_Automation.run` (lines 58-268): the full workflow with its
`try`/`except` boundary.  `err = some _` means an exception was raised and
caught at the boundary; `out` is the outcome dictionary as accumulated at
that point, which `join` returns to the Runner in every case. -/
def deployBody (e : DeployEnv) : DeployRes :=
  let out0 : DOutcome := ⟨false, [], []⟩
  match deployPrep e with
  | .error er => ⟨some er, out0, ⟨none, none, none⟩⟩
  | .ok p =>
    let tr1 : DTrace := ⟨some p.spec, none, none⟩
    if ¬ (e.postCode == 200 ∨ e.postCode == 201) then
      ⟨some .submitFailed, out0, tr1⟩
    else
      let js := deploySpin e.pollViews p.application p.pods
      let running := js.countP (fun en => pyIsNot en.state deadLit)
      let up := js.map (fun en => en.seq)
      let out1 : DOutcome := ⟨p.pods == (running : Int), up, []⟩
      if up.isEmpty then
        let tr2 : DTrace := ⟨some p.spec, some p.application, none⟩
        if e.deleteCode == 200 ∨ e.deleteCode == 204 then ⟨none, out1, tr2⟩
        else ⟨some .deleteFailed, out1, tr2⟩
      else if e.cycle then
        let tr2 : DTrace := ⟨some p.spec, none, some p.prev⟩
        if e.killExit == 0 then ⟨none, ⟨out1.ok, out1.up, p.prev⟩, tr2⟩
        else ⟨some .killFailed, out1, tr2⟩
      else ⟨none, out1, tr1⟩

/-- The Concurrent Runner's aggregation for deploy (lines 331-344): one
Automation per template, each joined for its outcome; no outcome is ever
missing because every error is caught inside `run`. -/
def deployRunner (es : List DeployEnv) : List DOutcome :=
  es.map (fun e => (deployBody e).out)

/-! ## Update Automation (update.py `_Automation.run`) -/

/-- The per-template outcome dictionary of update.py.  `up` holds
`Option Int` because the scale path appends whatever the bounded retry
returned, which is Python `None` when the poll timed out (modelled `none`). -/
structure UOutcome where
  ok : Bool
  up : List (Option Int)
  down : List Int
deriving DecidableEq

/-- The mutable `up`/`down` accumulators of `self.out` while steps run. -/
structure USt where
  up : List (Option Int)
  down : List Int
deriving DecidableEq

/-- Externally visible sibling-operation invocations of one replacement
step. -/
inductive UAction where
  | killA (batch : List Int)
  | deployA (n : Nat)
  | scaleA
deriving DecidableEq

/-- One replacement step as performed by the update workflow: the batch of
sequence numbers it retires, its boolean result, the sibling calls it made,
and the seconds slept after it (line 271-274; no sleep is a 0-second
sleep). -/
structure StepRec where
  batch : List Int
  result : Bool
  actions : List UAction
  sleptAfter : Int
deriving DecidableEq

/-- Errors raised (and caught at the boundary) by update.py's `run`. -/
inductive UErr where
  | noMaster
  | yamlError
  | emptyYaml
  | noCluster
  | noImage
  | envError
deriving DecidableEq

/-- Environment of one update Automation.  The sibling `kill`, `deploy`,
`scale` and registry-poll collaborators are oracles indexed by the step
counter; per §6 their JSON results are well-shaped. -/
structure UpdateEnv where
  masterSet : Bool
  yamlResult : Except Unit JVal
  suffix : Option String
  nspace : String
  replies : List (String × Int × Nat)
  ochopodOk : Bool
  killFirst : Bool
  rolling : Bool
  wait : Int
  killRes : Nat → Bool × List Int
  deployRes : Nat → Bool × List Int
  scaleOk : Nat → Bool
  scaleViews : Nat → List (List Int)

/-- Code-point lexicographic order on strings, as Python compares `str`
keys. -/
def charsLt : List Char → List Char → Bool
  | [], [] => false
  | [], _ :: _ => true
  | _ :: _, [] => false
  | c :: cs, d :: ds =>
      if Nat.blt c.toNat d.toNat then true
      else if Nat.blt d.toNat c.toNat then false
      else charsLt cs ds

def strLe (a b : String) : Bool := !(charsLt b.data a.data)

/-- Insertion into a key-sorted reply list (Python `sorted(replies.items())`,
keys are unique within a dict so the key order decides). -/
def insertByKey (p : String × Int × Nat) :
    List (String × Int × Nat) → List (String × Int × Nat)
  | [] => [p]
  | q :: rest => if strLe p.1 q.1 then p :: q :: rest else q :: insertByKey p rest

def sortReplies (rs : List (String × Int × Nat)) : List (String × Int × Nat) :=
  rs.foldr insertByKey []

/-- `_query_existing` (update.py lines 113-116): the total reply count, and
the `[key, seq]` pairs of the entries with status code 200 in key-sorted
order. -/
def queryExisting (rs : List (String × Int × Nat)) : Nat × List (String × Int) :=
  (rs.length,
   ((sortReplies rs).filter (fun r => r.2.2 == 200)).map (fun r => (r.1, r.2.1)))

/-- `_diff(a, b)` (update.py lines 174-176): the elements of `a` not in `b`.
`b` mixes integers with a possible Python `None` (from a timed-out scale
poll), which never equals an integer. -/
def pydiff (a : List Int) (b : List (Option Int)) : List Int :=
  a.filter (fun x => !(b.contains (some x)))

/-- One poll attempt of `_get_new_pod_seq`: succeeds exactly when the diff
of the freshly observed sequence numbers against the excluded ones has
exactly one element. -/
def scaleAttempt (seqNew : List Int) (excl : List (Option Int)) : Option Int :=
  match pydiff seqNew excl with
  | [s] => some s
  | _ => none

/-- Modelled from the spec: Bounded Retry (§4.2) around `_get_new_pod_seq`
(`@retry(timeout=60, pause=5)`); `ochopod.core.utils.retry` is not under
`src/`.  Attempts run until one succeeds; once the budget is exhausted the
default is returned instead of the failure — the call site passes no
default, so Python's `None` (here `none`) comes back. -/
def retryFirst (f : α → Option β) : List α → Option β
  | [] => none
  | v :: rest =>
      match f v with
      | some b => some b
      | none => retryFirst f rest

/-- `_scale` (update.py lines 185-213): run the sibling scale command, poll
the registry for the single new sequence number (excluding the pre-update
sequence numbers and those already recorded as added), append whatever the
poll produced to `out['up']`, and return the scale command's own result. -/
def scalePart (e : UpdateEnv) (jsOrig : List (String × Int)) (counter : Nat)
    (st : USt) : Bool × USt :=
  let scaleResult := e.scaleOk counter
  let excl := jsOrig.map (fun p => some p.2) ++ st.up
  let newSeq := retryFirst (fun v => scaleAttempt v excl) (e.scaleViews counter)
  (scaleResult, ⟨st.up ++ [newSeq], st.down⟩)

/-- `_kill` (update.py lines 215-223): run the sibling kill command, extend
`out['down']` with its reported `down` list, return its result. -/
def killPart (e : UpdateEnv) (counter : Nat) (st : USt) : Bool × USt :=
  let r := e.killRes counter
  (r.1, ⟨st.up, st.down ++ r.2⟩)

/-- `_deploy` (update.py lines 225-233): run the sibling deploy command,
extend `out['up']` with its reported `up` list, return its result. -/
def deployPart (e : UpdateEnv) (counter : Nat) (st : USt) : Bool × USt :=
  let r := e.deployRes counter
  (r.1, ⟨st.up ++ r.2.map some, st.down⟩)

/-- `_deploy_or_scale` (update.py lines 246-250): full redeploy while no pod
has been added yet in this Automation's lifetime, scale-by-one afterwards. -/
def deployOrScale (e : UpdateEnv) (jsOrig : List (String × Int)) (counter : Nat)
    (seq : List Int) (st : USt) : Bool × USt × UAction :=
  if st.up.length == 0 then
    let r := deployPart e counter st
    (r.1, r.2, .deployA seq.length)
  else
    let r := scalePart e jsOrig counter st
    (r.1, r.2, .scaleA)

/-- `_kill_deploy` (update.py lines 180-263): one replacement step over the
batch `seq`, choosing kill-first or deploy-first ordering. -/
def killDeploy (e : UpdateEnv) (jsOrig : List (String × Int)) (seq : List Int)
    (counter : Nat) (st : USt) : Bool × USt × List UAction :=
  if e.killFirst then
    let k := killPart e counter st
    if k.1 then
      let r := deployOrScale e jsOrig counter seq k.2
      (r.1, r.2.1, [.killA seq, r.2.2])
    else (false, k.2, [.killA seq])
  else
    let r := deployOrScale e jsOrig counter seq st
    if r.1 then
      let k := killPart e counter r.2.1
      (k.1, k.2, [r.2.2, .killA seq])
    else (false, r.2.1, [r.2.2])

/-- The rolling loop (update.py lines 265-275): one `_kill_deploy([seq])`
per existing pod in registry-query order, results conjoined, sleeping
`wait` seconds after every step but the last (when `wait > 0`). -/
def rollingGo (e : UpdateEnv) (jsOrig : List (String × Int)) (total : Nat) :
    Nat → USt → List (String × Int) → Bool × USt × List StepRec
  | _, st, [] => (true, st, [])
  | counter, st, (_, seq) :: rest =>
      let s1 := killDeploy e jsOrig [seq] counter st
      let w := max e.wait 0
      let slept : Int := if 0 < w ∧ counter < total - 1 then w else 0
      let r := rollingGo e jsOrig total (counter + 1) s1.2.1 rest
      (s1.1 && r.1, r.2.1, ⟨[seq], s1.1, s1.2.2, slept⟩ :: r.2.2)

structure UpdateRes where
  err : Option UErr
  out : UOutcome
  steps : List StepRec

def updateDefaults : JVal :=
  .obj [("start", .bool true), ("debug", .bool false), ("settings", .obj []),
        ("ports", .arr [.num 8080]), ("verbatim", .obj [])]

/-- Update.py lines 70-110: environment check, template parse, non-empty
check, defaults merge, cluster/image validation. -/
def updatePrep (e : UpdateEnv) : Except UErr Unit :=
  if ¬ e.masterSet then .error .noMaster else
  match e.yamlResult with
  | .error _ => .error .yamlError
  | .ok raw =>
    if ¬ jTruthy raw then .error .emptyYaml else
    let cfg := jmerge updateDefaults raw
    match jget0 cfg ("cluster") with
    | none => .error .noCluster
    | some _ =>
      match jget0 cfg ("image") with
      | none => .error .noImage
      | some _ => .ok ()

/-- Update.py `_Automation.run` (lines 64-299) with its `try`/`except`
boundary: query the existing pods; with zero replies the outcome is
`ok = false` and nothing happens; otherwise replace them all, in one bulk
step or rolling pod-by-pod. -/
def updateBody (e : UpdateEnv) : UpdateRes :=
  let out0 : UOutcome := ⟨false, [], []⟩
  match updatePrep e with
  | .error er => ⟨some er, out0, []⟩
  | .ok _ =>
    let tj := queryExisting e.replies
    if tj.1 == 0 then ⟨none, ⟨false, [], []⟩, []⟩
    else if ¬ e.ochopodOk then ⟨some .envError, out0, []⟩
    else if e.rolling then
      let r := rollingGo e tj.2 tj.2.length 0 ⟨[], []⟩ tj.2
      ⟨none, ⟨r.1, r.2.1.up, r.2.1.down⟩, r.2.2⟩
    else
      let r := killDeploy e tj.2 (tj.2.map (fun p => p.2)) 0 ⟨[], []⟩
      ⟨none, ⟨r.1, r.2.1.up, r.2.1.down⟩,
       [⟨tj.2.map (fun p => p.2), r.1, r.2.2, 0⟩]⟩

/-- The Concurrent Runner's aggregation for update (lines 370-391). -/
def updateRunner (es : List UpdateEnv) : List UOutcome :=
  es.map (fun e => (updateBody e).out)

/-- Whether a step action is a kill invocation. -/
def isKillA : UAction → Bool
  | .killA _ => true
  | _ => false

/-! ## Concrete environments used to evaluate the model

Each environment drives one Automation through a specific scenario; the pod
state strings carry nonzero object ids because they are deserialized from
registry replies, hence distinct objects from the interned literal. -/

/-- Deploy, cycling: one prior pod (seq 4), the new pod (seq 9) comes up
fine, but the phase-out kill exits nonzero. -/
def e1kill : DeployEnv :=
  ⟨true, .ok (.obj [("cluster", .str "web"), ("image", .str "img")]),
   [], "ns", none, true, none, "s", [(4, 200)], 200,
   [[⟨⟨"running", 5⟩, 9, "ochopod.ns.web-s"⟩]], 200, 1⟩

/-- Deploy with the environment variable for the scheduler masters unset. -/
def e1abort : DeployEnv :=
  ⟨false, .error (), [], "", none, false, none, "", [], 0, [], 0, 0⟩

/-- Deploy whose template carries `verbatim: \x7binstances: 5\x7d` while the
resolved pod count is 1. -/
def e2verbatim : DeployEnv :=
  ⟨true, .ok (.obj [("cluster", .str "web"), ("image", .str "img"),
                    ("verbatim", .obj [("instances", .num 5)])]),
   [], "ns", some 1, false, none, "s", [], 200, [], 200, 0⟩

/-- Deploy targeting 1 pod; the poll observes one pod whose process hint is
the (deserialized) string "dead". -/
def e3dead : DeployEnv :=
  ⟨true, .ok (.obj [("cluster", .str "web"), ("image", .str "img")]),
   [], "ns", some 1, false, none, "s", [], 200,
   [[⟨⟨"dead", 1⟩, 3, "ochopod.ns.web-s"⟩]], 200, 0⟩

/-- Deploy targeting 1 pod; the poll observes one dead-state pod (seq 7). -/
def e4dead : DeployEnv :=
  ⟨true, .ok (.obj [("cluster", .str "web"), ("image", .str "img")]),
   [], "ns", some 1, false, none, "t", [], 200,
   [[⟨⟨"dead", 2⟩, 7, "ochopod.ns.web-t"⟩]], 200, 0⟩

/-- Deploy targeting 1 pod; one live pod (seq 1) comes up. -/
def e4live : DeployEnv :=
  ⟨true, .ok (.obj [("cluster", .str "web"), ("image", .str "img")]),
   [], "ns", some 1, false, none, "u", [], 200,
   [[⟨⟨"running", 3⟩, 1, "ochopod.ns.web-u"⟩]], 200, 0⟩

/-- Deploy with `-p 0` while cycling over three live pods. -/
def e8zero : DeployEnv :=
  ⟨true, .ok (.obj [("cluster", .str "web"), ("image", .str "img")]),
   [], "ns", some 0, true, none, "s", [(1, 200), (2, 200), (3, 200)], 200,
   [], 200, 0⟩

/-- Rolling update over two pods (seqs 7 and 5 by key order), deploy-first;
every sibling call succeeds, the scale poll sees the single new seq 11. -/
def u5roll : UpdateEnv :=
  ⟨true, .ok (.obj [("cluster", .str "web"), ("image", .str "img")]),
   none, "ns", [("k1", 5, 200), ("k0", 7, 200)], true, false, true, 0,
   fun k => if k == 0 then (true, [7]) else (true, [5]),
   fun _ => (true, [10]),
   fun _ => true,
   fun _ => [[5, 10, 11]]⟩

/-- Rolling update over two pods (seqs 5 and 7), deploy-first; on the scale
step every registry view yields an empty diff, yet the scale command itself
reports success. -/
def u6stuck : UpdateEnv :=
  ⟨true, .ok (.obj [("cluster", .str "web"), ("image", .str "img")]),
   none, "ns", [("k0", 5, 200), ("k1", 7, 200)], true, false, true, 0,
   fun k => if k == 0 then (true, [5]) else (true, [7]),
   fun _ => (true, [10]),
   fun _ => true,
   fun _ => [[7, 10]]⟩

/-- Update environment whose scale poll sees exactly one new seq 42. -/
def u6one : UpdateEnv :=
  ⟨true, .ok .null, none, "", [], true, false, false, 0,
   fun _ => (true, []), fun _ => (true, []), fun _ => true, fun _ => [[42]]⟩

/-- Update environment in kill-first mode whose kill command fails. -/
def u7killfail : UpdateEnv :=
  ⟨true, .ok .null, none, "", [], true, true, false, 0,
   fun _ => (false, [3]), fun _ => (true, [1]), fun _ => true, fun _ => [[2]]⟩

/-- Rolling update over a cluster whose only registry entry has status 404. -/
def u9dead : UpdateEnv :=
  ⟨true, .ok (.obj [("cluster", .str "web"), ("image", .str "img")]),
   none, "ns", [("a", 1, 404)], true, false, true, 0,
   fun _ => (true, []), fun _ => (true, []), fun _ => true, fun _ => [[]]⟩

/-- Update environment, deploy-first, whose scale command fails while the
poll does find the single new seq 8. -/
def u10scalefail : UpdateEnv :=
  ⟨true, .ok .null, none, "", [], true, false, false, 0,
   fun _ => (true, []), fun _ => (true, []), fun _ => false, fun _ => [[8]]⟩

/-! ## General lemmas about the embedded operations -/

/-- One unfolding of `merge` on two mappings. -/
theorem jmerge_obj (af bf : List (String × JVal)) :
    jmerge (.obj af) (.obj bf)
      = .obj ((af.map (fun p => (p.1, match jget bf p.1 with
              | some bv => jmergeF 999 p.2 bv
              | none => p.2)))
            ++ bf.filter (fun q => (jget af q.1).isNone)) := rfl

/-- Merging anything into a non-mapping value yields that value. -/
theorem jmergeF_nonobj (f : Nat) (a b : JVal) (h : isObjJ b = false) :
    jmergeF f a b = b := by
  cases f with
  | zero => rfl
  | succ f =>
      cases a <;> cases b <;> first | rfl | simp [isObjJ] at h

theorem jget_append (k : String) :
    ∀ xs ys : List (String × JVal),
      jget (xs ++ ys) k
        = match jget xs k with
          | some v => some v
          | none => jget ys k := by
  intro xs ys
  induction xs with
  | nil => simp [jget]
  | cons p rest ih =>
      obtain ⟨k0, v⟩ := p
      by_cases h : k0 == k
      · simp [jget, h]
      · simp [jget, h, ih]

theorem jget_mergedMap (f : Nat) (bf : List (String × JVal)) (k : String) :
    ∀ af : List (String × JVal),
      jget (af.map (fun p => (p.1, match jget bf p.1 with
              | some bv => jmergeF f p.2 bv
              | none => p.2))) k
        = match jget af k with
          | some av => some (match jget bf k with
                             | some bv => jmergeF f av bv
                             | none => av)
          | none => none := by
  intro af
  induction af with
  | nil => simp [jget]
  | cons p rest ih =>
      obtain ⟨k0, v⟩ := p
      by_cases h : k0 == k
      · have hk : k0 = k := by simpa using h
        subst hk
        simp [jget, h]
      · simp [jget, h, ih]

theorem jget_filterAbsent (af : List (String × JVal)) (k : String)
    (h : jget af k = none) :
    ∀ bf : List (String × JVal),
      jget (bf.filter (fun q => (jget af q.1).isNone)) k = jget bf k := by
  intro bf
  induction bf with
  | nil => rfl
  | cons q rest ih =>
      obtain ⟨k1, w⟩ := q
      by_cases hk : k1 == k
      · have hk1 : k1 = k := by simpa using hk
        subst hk1
        simp [List.filter, h, jget]
      · by_cases hp : (jget af k1).isNone
        · simp [List.filter, hp, jget, hk, ih]
        · simp [List.filter, hp, jget, hk, ih]

theorem retryFirst_some {f : α → Option β} {b : β} :
    ∀ {l : List α}, retryFirst f l = some b → ∃ v ∈ l, f v = some b := by
  intro l
  induction l with
  | nil => intro h; simp [retryFirst] at h
  | cons v rest ih =>
      intro h
      unfold retryFirst at h
      cases hv : f v with
      | some b0 =>
          rw [hv] at h
          exact ⟨v, List.mem_cons_self v rest, by rw [hv, ← h]⟩
      | none =>
          rw [hv] at h
          obtain ⟨w, hw, hfw⟩ := ih h
          exact ⟨w, List.mem_cons_of_mem v hw, hfw⟩

theorem scaleAttempt_some {seqNew : List Int} {excl : List (Option Int)} {s : Int}
    (h : scaleAttempt seqNew excl = some s) : pydiff seqNew excl = [s] := by
  unfold scaleAttempt at h
  split at h
  · next s0 heq => rw [heq]; injection h with h1; rw [h1]
  · exact absurd h (by simp)

theorem mem_insertByKey {a p : String × Int × Nat} :
    ∀ {l : List (String × Int × Nat)}, a ∈ insertByKey p l → a = p ∨ a ∈ l := by
  intro l
  induction l with
  | nil => intro h; simpa [insertByKey] using h
  | cons q rest ih =>
      intro h
      unfold insertByKey at h
      by_cases hle : strLe p.1 q.1
      · simp [hle] at h
        rcases h with h | h | h
        · exact Or.inl h
        · exact Or.inr (by simp [h])
        · exact Or.inr (List.mem_cons_of_mem q h)
      · simp [hle] at h
        rcases h with h | h
        · exact Or.inr (by simp [h])
        · rcases ih h with h2 | h2
          · exact Or.inl h2
          · exact Or.inr (List.mem_cons_of_mem q h2)

theorem mem_sortReplies {a : String × Int × Nat} :
    ∀ {l : List (String × Int × Nat)}, a ∈ sortReplies l → a ∈ l := by
  intro l
  induction l with
  | nil => intro h; simp [sortReplies] at h
  | cons q rest ih =>
      intro h
      unfold sortReplies at h
      rcases mem_insertByKey h with h2 | h2
      · simp [h2]
      · exact List.mem_cons_of_mem q (ih h2)

theorem rollingGo_spec (e : UpdateEnv) (jsOrig : List (String × Int)) (total : Nat) :
    ∀ (pend : List (String × Int)) (counter : Nat) (st : USt),
      ((rollingGo e jsOrig total counter st pend).2.2.map (fun r => r.batch)
          = pend.map (fun p => [p.2])) ∧
      ((rollingGo e jsOrig total counter st pend).1
          = ((rollingGo e jsOrig total counter st pend).2.2.map (fun r => r.result)).all id) ∧
      ((rollingGo e jsOrig total counter st pend).2.2.map (fun r => r.sleptAfter)
          = (List.range pend.length).map (fun i =>
               if counter + i < total - 1 then max e.wait 0 else 0)) := by
  intro pend
  induction pend with
  | nil => intro counter st; simp [rollingGo]
  | cons hd rest ih =>
      intro counter st
      obtain ⟨key, seq⟩ := hd
      have hih := ih (counter + 1) (killDeploy e jsOrig [seq] counter st).2.1
      refine ⟨?_, ?_, ?_⟩
      · simp only [rollingGo, List.map_cons]
        rw [hih.1]
      · simp only [rollingGo, List.map_cons, List.all_cons]
        rw [← hih.2.1]
        simp
      · simp only [rollingGo, List.map_cons, List.length_cons]
        rw [List.range_succ_eq_map, List.map_cons, List.map_map]
        have hhead : (if 0 < max e.wait 0 ∧ counter < total - 1 then max e.wait 0 else 0)
            = (if counter + 0 < total - 1 then max e.wait 0 else 0) := by
          by_cases hc : counter < total - 1
          · by_cases hw : 0 < max e.wait 0
            · simp [hc, hw]
            · have hw0 : max e.wait 0 = 0 :=
                le_antisymm (not_lt.mp hw) (le_max_right e.wait 0)
              simp [hc, hw, hw0]
          · simp [hc]
        have htail : ((fun i => if counter + i < total - 1 then max e.wait 0 else 0) ∘ Nat.succ)
            = (fun i => if counter + 1 + i < total - 1 then max e.wait 0 else 0) := by
          funext i
          simp only [Function.comp]
          exact if_congr (by omega) rfl rfl
        rw [hhead, htail, hih.2.2]

theorem jmerge_lookup (vf bf : List (String × JVal)) (k : String) :
    (∀ v : JVal, jget bf k = some v → isObjJ v = false →
        jget0 (jmerge (.obj vf) (.obj bf)) k = some v) ∧
    (jget bf k = none → jget0 (jmerge (.obj vf) (.obj bf)) k = jget vf k) := by
  constructor
  · intro v hv hobj
    rw [jmerge_obj]
    simp only [jget0]
    rw [jget_append, jget_mergedMap]
    cases hvf : jget vf k with
    | some av =>
        simp only [hvf, hv]
        rw [jmergeF_nonobj 999 av v hobj]
    | none =>
        simp only [hvf]
        rw [jget_filterAbsent vf k hvf bf, hv]
  · intro hnone
    rw [jmerge_obj]
    simp only [jget0]
    rw [jget_append, jget_mergedMap]
    cases hvf : jget vf k with
    | some av => simp only [hvf, hnone]
    | none =>
        simp only [hvf]
        rw [jget_filterAbsent vf k hvf bf, hnone]

/-- `jgetPath` over a single-key path is `jget0`. -/
theorem jgetPath_single (x : JVal) (k : String) :
    jgetPath x [k] = jget0 x k := by
  cases h : jget0 x k with
  | none => simp [jgetPath, h]
  | some w => simp [jgetPath, h]

/-- One unfolding of the modelled merge on two mappings, at any fuel. -/
theorem jmergeF_obj (f : Nat) (af bf : List (String × JVal)) :
    jmergeF (f + 1) (.obj af) (.obj bf)
      = .obj ((af.map (fun p => (p.1, match jget bf p.1 with
              | some bv => jmergeF f p.2 bv
              | none => p.2)))
            ++ bf.filter (fun q => (jget af q.1).isNone)) := rfl

/-- Merging a non-mapping value into a mapping yields the mapping. -/
theorem jmergeF_nonobj_left (f : Nat) (a : JVal) (bf : List (String × JVal))
    (h : isObjJ a = false) : jmergeF (f + 1) a (.obj bf) = .obj bf := by
  cases a <;> first | rfl | simp [isObjJ] at h

/-- Any non-mapping value reachable in `b` at any path keeps exactly that
value in `merge(a, b)`: along the path the two sides are either merged
recursively (mappings on both sides), or `b`\'s subtree wins outright, so
the right-hand side\'s non-mapping leaves always survive.  Holds at every
fuel because exhausted fuel also yields `b`. -/
theorem jmergeF_path_nonobj (v : JVal) (hobj : isObjJ v = false) :
    ∀ (ks : List String) (f : Nat) (a b : JVal),
      jgetPath b ks = some v → jgetPath (jmergeF f a b) ks = some v := by
  intro ks
  induction ks with
  | nil =>
      intro f a b hpath
      simp only [jgetPath] at hpath ⊢
      injection hpath with hb
      subst hb
      rw [jmergeF_nonobj f a b hobj]
  | cons k ks2 ih =>
      intro f a b hpath
      cases hw : jget0 b k with
      | none => simp [jgetPath, hw] at hpath
      | some w =>
          simp only [jgetPath, hw] at hpath
          cases b with
          | null => simp [jget0] at hw
          | bool b0 => simp [jget0] at hw
          | num n => simp [jget0] at hw
          | str s => simp [jget0] at hw
          | arr xs => simp [jget0] at hw
          | obj bf =>
              simp only [jget0] at hw
              cases f with
              | zero =>
                  simp only [jmergeF, jgetPath, jget0, hw]
                  exact hpath
              | succ f2 =>
                  cases a with
                  | obj af =>
                      rw [jmergeF_obj]
                      simp only [jgetPath, jget0]
                      rw [jget_append, jget_mergedMap]
                      cases hak : jget af k with
                      | some av =>
                          simp only [hak, hw]
                          exact ih f2 av w hpath
                      | none =>
                          simp only [hak, jget_filterAbsent af k hak bf, hw]
                          exact hpath
                  | null =>
                      rw [jmergeF_nonobj_left f2 .null bf rfl]
                      simp only [jgetPath, jget0, hw]
                      exact hpath
                  | bool b0 =>
                      rw [jmergeF_nonobj_left f2 (.bool b0) bf rfl]
                      simp only [jgetPath, jget0, hw]
                      exact hpath
                  | num n =>
                      rw [jmergeF_nonobj_left f2 (.num n) bf rfl]
                      simp only [jgetPath, jget0, hw]
                      exact hpath
                  | str s =>
                      rw [jmergeF_nonobj_left f2 (.str s) bf rfl]
                      simp only [jgetPath, jget0, hw]
                      exact hpath
                  | arr xs =>
                      rw [jmergeF_nonobj_left f2 (.arr xs) bf rfl]
                      simp only [jgetPath, jget0, hw]
                      exact hpath

/-- C2 (amended): the `verbatim` mapping is deep-merged *under* the
generated submission document: the merge is recursive where both sides hold
mappings and the generated side wins — every non-mapping value the
generator produces, at any depth, keeps exactly that value in the final
submission (so lookups below such a key go through the generated value
only, and a verbatim subtree sitting under it is discarded), while a
top-level key the generator does not produce is taken from verbatim
(the source merges `merge(cfg['verbatim'], spec)` with the generated
document on the winning side). -/
theorem c2_amended (vf : List (String × JVal)) (application : String)
    (pods : Int) (cluster : String) (debug : Bool) (nspace qualified : String)
    (settings : JVal) (image : String) (ports : List PortSpec) :
    (∀ (ks : List String) (v : JVal),
        jgetPath (buildSubmission application pods cluster debug nspace
            qualified settings image ports) ks = some v →
        isObjJ v = false →
        jgetPath (jmerge (.obj vf) (buildSubmission application pods cluster
            debug nspace qualified settings image ports)) ks = some v) ∧
    (∀ (k : String) (ks2 : List String) (v : JVal),
        jget0 (buildSubmission application pods cluster debug nspace
            qualified settings image ports) k = some v →
        isObjJ v = false →
        jgetPath (jmerge (.obj vf) (buildSubmission application pods cluster
            debug nspace qualified settings image ports)) (k :: ks2)
          = jgetPath v ks2) ∧
    (∀ k : String,
        jget (buildSubmissionFields application pods cluster debug nspace
            qualified settings image ports) k = none →
        jget0 (jmerge (.obj vf) (buildSubmission application pods cluster
            debug nspace qualified settings image ports)) k = jget vf k) := by
  refine ⟨?_, ?_, ?_⟩
  · intro ks v hpath hobj
    exact jmergeF_path_nonobj v hobj ks 1000 (.obj vf)
      (buildSubmission application pods cluster debug nspace qualified
        settings image ports) hpath
  · intro k ks2 v hv hobj
    have h1 : jgetPath (buildSubmission application pods cluster debug nspace
        qualified settings image ports) [k] = some v := by
      rw [jgetPath_single]
      exact hv
    have h2 := jmergeF_path_nonobj v hobj [k] 1000 (.obj vf)
      (buildSubmission application pods cluster debug nspace qualified
        settings image ports) h1
    rw [jgetPath_single] at h2
    simp only [jgetPath]
    rw [show jget0 (jmerge (.obj vf) (buildSubmission application pods cluster
        debug nspace qualified settings image ports)) k = some v from h2]
  · intro k h0
    exact (jmerge_lookup vf (buildSubmissionFields application pods cluster
             debug nspace qualified settings image ports) k).2 h0

theorem c2_amended_witness :
    jgetPath (jmerge
        (.obj [("cpus", .num 2), ("container", .obj [("type", .str "X")])])
        (buildSubmission ("a") 1 ("c") false ("n") ("q") (.obj []) ("i") []))
        ["container", "type"] = some (.str "DOCKER") ∧
    jgetPath (jmerge
        (.obj [("cpus", .num 2), ("container", .obj [("type", .str "X")])])
        (buildSubmission ("a") 1 ("c") false ("n") ("q") (.obj []) ("i") []))
        ["id", "x"] = jgetPath (.str "a") ["x"] ∧
    jget0 (jmerge
        (.obj [("cpus", .num 2), ("container", .obj [("type", .str "X")])])
        (buildSubmission ("a") 1 ("c") false ("n") ("q") (.obj []) ("i") []))
        ("cpus") = some (.num 2) := by
  refine ⟨?_, ?_, ?_⟩
  · exact (c2_amended [("cpus", .num 2), ("container", .obj [("type", .str "X")])]
      ("a") 1 ("c") false ("n") ("q") (.obj []) ("i") []).1
      ["container", "type"] (.str "DOCKER") rfl rfl
  · exact (c2_amended [("cpus", .num 2), ("container", .obj [("type", .str "X")])]
      ("a") 1 ("c") false ("n") ("q") (.obj []) ("i") []).2.1
      ("id") ["x"] (.str "a") rfl rfl
  · have h := (c2_amended [("cpus", .num 2), ("container", .obj [("type", .str "X")])]
      ("a") 1 ("c") false ("n") ("q") (.obj []) ("i") []).2.2 ("cpus") rfl
    rw [h]
    rfl

/-- C2 (counterexample): with `verbatim: \x7binstances: 5\x7d` and a resolved
pod count of 1, the submitted document carries `instances = 1`: the
generated value, not the verbatim one, wins on a key present in both. -/
theorem c2_counterexample :
    jget0 ((deployBody e2verbatim).trace.posted.getD .null) ("instances")
        = some (.num 1) ∧
    ¬ jget0 ((deployBody e2verbatim).trace.posted.getD .null) ("instances")
        = some (.num 5) := by
  refine ⟨rfl, ?_⟩
  intro h
  have h1 : (some (JVal.num 1) : Option JVal) = some (.num 5) :=
    (show jget0 ((deployBody e2verbatim).trace.posted.getD .null) ("instances")
        = some (JVal.num 1) from rfl).symm.trans h
  injection h1 with h2
  injection h2 with h3
  exact absurd h3 (by decide)

/-- C3: at the failing input (target pod count 1, the poll observing one pod
whose deserialized process hint is "dead"), the run reports `ok = true` with
`up = [3]`, although the number of pods that are alive by value (process
hint not "dead") is 0 — the `is not 'dead'` identity comparison counts every
deserialized state string as running. -/
theorem c3_code_bug :
    (deployBody e3dead).err = none ∧
    (deployBody e3dead).out.up = [3] ∧
    (deployBody e3dead).out.ok = true ∧
    (deploySpin e3dead.pollViews ("ochopod.ns.web-s") 1).countP
        (fun en => en.state.val != "dead") = 0 :=
  ⟨rfl, rfl, rfl, rfl⟩

/-- C4 (counterexample): the poll observes one pod whose process state is
"dead" — zero live pods — yet no DELETE is issued, because the cleanup
guard tests whether the observed list is empty, not liveness. -/
theorem c4_counterexample :
    (deployBody e4dead).trace.posted.isSome = true ∧
    (deploySpin e4dead.pollViews ("ochopod.ns.web-t") 1).countP
        (fun en => en.state.val != "dead") = 0 ∧
    (deployBody e4dead).trace.deleted = none :=
  ⟨rfl, rfl, rfl⟩

/-- C4 (amended): for every deploy run that reaches the post-submit poll,
the scheduler application is deleted iff the poll observed zero pods (dead
or alive) for the new application id; with at least one observed pod it is
never deleted, even when the count is below target. -/
theorem c4_amended (e : DeployEnv)
    (hprep : ∃ p, deployPrep e = .ok p)
    (hpost : e.postCode == 200 ∨ e.postCode == 201) :
    ((deployBody e).trace.deleted.isSome = true) ↔ ((deployBody e).out.up = []) := by
  obtain ⟨p, hp⟩ := hprep
  unfold deployBody
  rw [hp]
  dsimp only
  rw [if_neg (not_not_intro hpost)]
  split
  · split
    · simp_all [List.isEmpty_iff]
    · simp_all [List.isEmpty_iff]
  · split
    · split
      · simp_all [List.isEmpty_iff]
      · simp_all [List.isEmpty_iff]
    · simp_all [List.isEmpty_iff]

theorem c4_amended_witness :
    (((deployBody e4live).trace.deleted.isSome = true)
        ↔ ((deployBody e4live).out.up = [])) ∧
    (deployBody e4live).out.up = [1] :=
  ⟨c4_amended e4live ⟨_, rfl⟩ (Or.inl rfl), rfl⟩

/-- C8 (counterexample): with an explicit `-p 0` while cycling over three
live pods, the submission carries `instances = 3` (the current pod count),
not the explicitly given 0: `not self.pods` treats 0 as "not given". -/
theorem c8_counterexample :
    resolvePods (some 0) true 3 = 3 ∧
    jget0 ((deployBody e8zero).trace.posted.getD .null) ("instances")
        = some (.num 3) ∧
    ¬ jget0 ((deployBody e8zero).trace.posted.getD .null) ("instances")
        = some (.num 0) := by
  refine ⟨rfl, rfl, ?_⟩
  intro h
  have h1 : (some (JVal.num 3) : Option JVal) = some (.num 0) :=
    (show jget0 ((deployBody e8zero).trace.posted.getD .null) ("instances")
        = some (JVal.num 3) from rfl).symm.trans h
  injection h1 with h2
  injection h2 with h3
  exact absurd h3 (by decide)

/-- C8 (amended): the target pod count is the explicit `-p` value when one
was given and it is nonzero; otherwise (absent or zero) it is the current
live pod count of the pre-deploy snapshot when cycling, else 1. -/
theorem c8_amended (c : Bool) (l : Nat) :
    (∀ n : Int, ¬ n = 0 → resolvePods (some n) c l = n) ∧
    resolvePods none c l = (if c then (l : Int) else 1) ∧
    resolvePods (some 0) c l = (if c then (l : Int) else 1) := by
  refine ⟨?_, ?_, ?_⟩
  · intro n hn
    have hb : (n == 0) = false := by simpa using hn
    simp [resolvePods, pyFalsyOpt, hb]
  · cases c <;> simp [resolvePods, pyFalsyOpt]
  · cases c <;> simp [resolvePods, pyFalsyOpt]

theorem c8_amended_witness :
    resolvePods (some 4) true 3 = 4 ∧ resolvePods none true 3 = 3 := by
  constructor
  · exact (c8_amended true 3).1 4 (by decide)
  · have h := (c8_amended true 3).2.1
    simpa using h

/-- C1 (counterexample): an error raised inside deploy's `run` after the
success flag is recorded — here the cycling phase-out kill exiting
nonzero — is caught at the boundary, yet the outcome keeps `ok = true`,
not `ok = false` as claimed. -/
theorem c1_counterexample :
    (deployBody e1kill).err = some .killFailed ∧
    (deployBody e1kill).out.ok = true :=
  ⟨rfl, rfl⟩

/-- C1 (amended): every error raised inside an Automation's `run` is caught
at that Automation's boundary and never escapes — the Runner always
aggregates one outcome per template.  The outcome has `ok = false` for
every Update error and for every Deploy error raised before the post-poll
flag is recorded; a Deploy error raised afterwards (the cleanup DELETE or
the cycling phase-out kill) leaves the already recorded `ok` value. -/
theorem c1_amended :
    (∀ (e : DeployEnv) (er : DeployErr), (deployBody e).err = some er →
        er = .killFailed ∨ er = .deleteFailed ∨ (deployBody e).out.ok = false) ∧
    (∀ (e : UpdateEnv) (er : UErr), (updateBody e).err = some er →
        (updateBody e).out.ok = false) ∧
    (∀ es : List DeployEnv, (deployRunner es).length = es.length) ∧
    (∀ es : List UpdateEnv, (updateRunner es).length = es.length) := by
  refine ⟨?_, ?_, ?_, ?_⟩
  · intro e er h
    unfold deployBody at h ⊢
    cases hp : deployPrep e with
    | error er2 =>
        exact Or.inr (Or.inr rfl)
    | ok p =>
        dsimp only at h ⊢
        repeat' split at h
        all_goals simp_all
  · intro e er h
    unfold updateBody at h ⊢
    cases hp : updatePrep e with
    | error er2 =>
        rfl
    | ok u =>
        dsimp only at h ⊢
        repeat' split at h
        all_goals simp_all
  · intro es
    simp [deployRunner]
  · intro es
    simp [updateRunner]

theorem c1_amended_witness :
    DeployErr.noMaster = .killFailed ∨ DeployErr.noMaster = .deleteFailed ∨
      (deployBody e1abort).out.ok = false :=
  c1_amended.1 e1abort .noMaster rfl

/-- C5: rolling mode performs exactly one replacement step per existing pod,
in registry-query order, each step covering exactly that pod's sequence
number, with the overall ok the conjunction of all step results and an
effective sleep of `wait` seconds after each step except the last; bulk
mode performs exactly one step covering all sequence numbers. -/
theorem c5 (e : UpdateEnv)
    (hp : updatePrep e = .ok ())
    (he : e.ochopodOk = true)
    (hn : ¬ e.replies = []) :
    (e.rolling = true →
       ((updateBody e).steps.map (fun r => r.batch)
           = (queryExisting e.replies).2.map (fun p => [p.2])) ∧
       ((updateBody e).out.ok
           = ((updateBody e).steps.map (fun r => r.result)).all id) ∧
       ((updateBody e).steps.map (fun r => r.sleptAfter)
           = (List.range (queryExisting e.replies).2.length).map (fun i =>
               if i + 1 < (queryExisting e.replies).2.length
               then max e.wait 0 else 0))) ∧
    (e.rolling = false →
       ((updateBody e).steps.map (fun r => r.batch)
           = [(queryExisting e.replies).2.map (fun p => p.2)]) ∧
       ((updateBody e).out.ok
           = ((updateBody e).steps.map (fun r => r.result)).all id)) := by
  have hlen : ¬ ((queryExisting e.replies).1 == 0) = true := by
    simp only [queryExisting, beq_iff_eq]
    intro hh
    exact hn (List.length_eq_zero.mp hh)
  constructor
  · intro hr
    unfold updateBody
    rw [hp]
    dsimp only
    rw [if_neg hlen, if_neg (not_not_intro he), if_pos hr]
    have hs := rollingGo_spec e (queryExisting e.replies).2
        (queryExisting e.replies).2.length (queryExisting e.replies).2 0 ⟨[], []⟩
    refine ⟨hs.1, hs.2.1, ?_⟩
    rw [hs.2.2]
    have hfun : (fun i => if 0 + i < (queryExisting e.replies).2.length - 1
          then max e.wait 0 else 0)
        = (fun i => if i + 1 < (queryExisting e.replies).2.length
          then max e.wait 0 else 0) := by
      funext i
      exact if_congr (by omega) rfl rfl
    rw [hfun]
  · intro hr
    unfold updateBody
    rw [hp]
    dsimp only
    rw [if_neg hlen, if_neg (not_not_intro he), if_neg (by simp [hr])]
    dsimp only
    exact ⟨rfl, by simp⟩

theorem c5_witness :
    (updateBody u5roll).steps.map (fun r => r.batch) = [[7], [5]] ∧
    (updateBody u5roll).out.ok
        = ((updateBody u5roll).steps.map (fun r => r.result)).all id := by
  have h := c5 u5roll rfl rfl (by decide)
  refine ⟨?_, (h.1 rfl).2.1⟩
  rw [(h.1 rfl).1]
  rfl

/-- C9: with at least one registry entry for the qualified cluster but none
with status code 200, rolling update performs zero replacement steps and
the outcome is `ok = true` with empty up and down lists — the zero-pod
guard tests the total reply count, not the live count. -/
theorem c9 (e : UpdateEnv)
    (hp : updatePrep e = .ok ())
    (he : e.ochopodOk = true)
    (hn : ¬ e.replies = [])
    (hall : ∀ r ∈ e.replies, ¬ r.2.2 = 200)
    (hr : e.rolling = true) :
    (updateBody e).out = ⟨true, [], []⟩ ∧ (updateBody e).steps = [] := by
  have hlen : ¬ ((queryExisting e.replies).1 == 0) = true := by
    simp only [queryExisting, beq_iff_eq]
    intro hh
    exact hn (List.length_eq_zero.mp hh)
  have hjs : (queryExisting e.replies).2 = [] := by
    simp only [queryExisting]
    rw [List.map_eq_nil_iff, List.filter_eq_nil_iff]
    intro a ha
    simpa using hall a (mem_sortReplies ha)
  unfold updateBody
  rw [hp]
  dsimp only
  rw [if_neg hlen, if_neg (not_not_intro he), if_pos hr, hjs]
  exact ⟨rfl, rfl⟩

theorem c9_witness :
    (updateBody u9dead).out = ⟨true, [], []⟩ :=
  (c9 u9dead rfl rfl (by decide) (by decide) rfl).1

/-- The replacement created by `_deploy_or_scale` is never a kill. -/
theorem deployOrScale_not_kill (e : UpdateEnv) (jsOrig : List (String × Int))
    (counter : Nat) (seq : List Int) (st : USt) :
    isKillA (deployOrScale e jsOrig counter seq st).2.2 = false := by
  unfold deployOrScale
  split <;> rfl

/-- C6 (counterexample): a scale-based replacement step in which every
registry poll yields a diff of cardinality 0 (so `None` is recorded) still
succeeds, because after the bounded retry falls back to its default the
step's result is just the scale command's own result.  Step 2 below is
scale-based, its polls' diff is empty, yet its result is `true`. -/
theorem c6_counterexample :
    (updateBody u6stuck).steps.map (fun r => r.result) = [true, true] ∧
    (updateBody u6stuck).steps.map (fun r => r.actions)
        = [[.deployA 1, .killA [5]], [.scaleA, .killA [7]]] ∧
    (updateBody u6stuck).out.up = [some 10, none] ∧
    pydiff [7, 10] ([some 5, some 7] ++ [some 10]) = [] :=
  ⟨rfl, rfl, rfl, rfl⟩

/-- C6 (amended): in a scale-based replacement step, a new sequence number
is recorded only when some poll's diff against (pre-update sequences ∪
already-added ones) has cardinality exactly one — any other cardinality
merely retries, and on timeout the default `None` is recorded instead —
while the step's success equals the scale command's result in every case. -/
theorem c6_amended (e : UpdateEnv) (jsOrig : List (String × Int)) (counter : Nat)
    (st : USt) :
    ((scalePart e jsOrig counter st).1 = e.scaleOk counter) ∧
    ((scalePart e jsOrig counter st).2.up
        = st.up ++ [retryFirst (fun v => scaleAttempt v
            (jsOrig.map (fun p => some p.2) ++ st.up)) (e.scaleViews counter)]) ∧
    (∀ s : Int,
        retryFirst (fun v => scaleAttempt v
            (jsOrig.map (fun p => some p.2) ++ st.up))
            (e.scaleViews counter) = some s →
        ∃ v ∈ e.scaleViews counter,
          pydiff v (jsOrig.map (fun p => some p.2) ++ st.up) = [s]) := by
  refine ⟨rfl, rfl, ?_⟩
  intro s hs
  obtain ⟨v, hv, hfv⟩ := retryFirst_some hs
  exact ⟨v, hv, scaleAttempt_some hfv⟩

theorem c6_amended_witness :
    ∃ v ∈ u6one.scaleViews 0, pydiff v [] = [42] := by
  have h := (c6_amended u6one [] 0 ⟨[], []⟩).2.2 42 rfl
  simpa using h

/-- C7: with `kill_first` the kill of the batch comes first and a failed
kill fails the step with no replacement attempted; otherwise the
replacement comes first and a failed replacement fails the step with the
kill skipped. -/
theorem c7 (e : UpdateEnv) (jsOrig : List (String × Int)) (seq : List Int)
    (counter : Nat) (st : USt) :
    (e.killFirst = true →
       ((killDeploy e jsOrig seq counter st).2.2.head? = some (.killA seq)) ∧
       ((e.killRes counter).1 = false →
          (killDeploy e jsOrig seq counter st).1 = false ∧
          (killDeploy e jsOrig seq counter st).2.2.all isKillA = true) ∧
       ((e.killRes counter).1 = true →
          (killDeploy e jsOrig seq counter st).2.2
            = [.killA seq,
               (deployOrScale e jsOrig counter seq (killPart e counter st).2).2.2])) ∧
    (e.killFirst = false →
       ((killDeploy e jsOrig seq counter st).2.2.head?
            = some (deployOrScale e jsOrig counter seq st).2.2) ∧
       (isKillA (deployOrScale e jsOrig counter seq st).2.2 = false) ∧
       ((deployOrScale e jsOrig counter seq st).1 = false →
          (killDeploy e jsOrig seq counter st).1 = false ∧
          (killDeploy e jsOrig seq counter st).2.2.all
              (fun a => !(isKillA a)) = true)) := by
  constructor
  · intro hk
    rcases hkr : e.killRes counter with ⟨kOk, downs⟩
    cases kOk with
    | false =>
        refine ⟨?_, ?_, ?_⟩
        · simp [killDeploy, killPart, hk, hkr]
        · intro _
          constructor
          · simp [killDeploy, killPart, hk, hkr]
          · simp [killDeploy, killPart, hk, hkr, isKillA]
        · intro hcontra
          simp at hcontra
    | true =>
        refine ⟨?_, ?_, ?_⟩
        · simp [killDeploy, killPart, hk, hkr]
        · intro hcontra
          simp at hcontra
        · intro _
          simp [killDeploy, killPart, hk, hkr]
  · intro hk
    refine ⟨?_, deployOrScale_not_kill e jsOrig counter seq st, ?_⟩
    · rcases hdr : deployOrScale e jsOrig counter seq st with ⟨dOk, dst, dact⟩
      cases dOk <;> simp [killDeploy, hk, hdr]
    · intro hd
      constructor
      · simp [killDeploy, hk, hd]
      · simp [killDeploy, hk, hd, deployOrScale_not_kill]

theorem c7_witness :
    (killDeploy u7killfail [] [3] 0 ⟨[], []⟩).1 = false ∧
    (killDeploy u7killfail [] [3] 0 ⟨[], []⟩).2.2.all isKillA = true :=
  ((c7 u7killfail [] [3] 0 ⟨[], []⟩).1 rfl).2.1 rfl

/-- C10: in a deploy-first replacement step that takes the scale path, when
the registry diff yields exactly one new sequence number it is appended to
`up` before the scale command's success is checked: with a failed scale
command the step fails (and the kill is skipped), yet `up` has grown by
that sequence number. -/
theorem c10 (e : UpdateEnv) (jsOrig : List (String × Int)) (seq : List Int)
    (counter : Nat) (st : USt) (s : Int)
    (hk : e.killFirst = false)
    (hup : ¬ st.up = [])
    (hs : e.scaleOk counter = false)
    (hpoll : retryFirst (fun v => scaleAttempt v
        (jsOrig.map (fun p => some p.2) ++ st.up))
        (e.scaleViews counter) = some s) :
    killDeploy e jsOrig seq counter st
      = (false, ⟨st.up ++ [some s], st.down⟩, [.scaleA]) := by
  have hlen : ¬ (st.up.length == 0) = true := by
    simp only [beq_iff_eq]
    intro hh
    exact hup (List.length_eq_zero.mp hh)
  simp [killDeploy, deployOrScale, scalePart, hk, hlen, hs, hpoll]

theorem c10_witness :
    killDeploy u10scalefail [("x", 1)] [1] 0 ⟨[some 2], []⟩
      = (false, ⟨[some 2, some 8], []⟩, [.scaleA]) := by
  have h := c10 u10scalefail [("x", 1)] [1] 0 ⟨[some 2], []⟩ 8 rfl (by decide) rfl rfl
  simpa using h
